import Mathlib

/-!
Verification of the `AdvancedImage` responsive image component
(`src/components/ui/AdvancedImage.tsx`).

The component is shallowly embedded below:
* `generateSources` / `generateSrcSet` are the pure string-templating
  functions, translated directly from the source.
* The load/error state tracker is embedded as `LoadState` together with
  the effect/handler functions `srcChangeEffect`, `handleLoadActions`,
  `handleErrorActions`.
* The render selector is embedded as `render`, mapping props and state to
  a `RenderOutput` tree (error box, or content with an optional placeholder
  overlay and a `picture` element).  Pure styling props (`className`,
  `style`) are presentational pass-throughs and are not modelled; the
  load-dependent opacity classes, which the spec talks about, are.
* The preload side effect is embedded as a small event machine
  (`pstep` / `prun`) over React mount/update/unmount effect semantics,
  tracking the preload links this component has injected into the
  document head.
-/

namespace AdvancedImage

/-- A format's sources: either a single passthrough URL (the TSX returns a
plain string) or the five width-tagged variants plus the original. -/
inductive FormatSources where
  | single (url : String)
  | multi (xs sm md lg xl original : String)
deriving DecidableEq

/-- The breakpoint tags of the five-breakpoint mapping, plus `original`. -/
inductive Tag where
  | xs | sm | md | lg | xl | original
deriving DecidableEq

/-- Look up one variant; `none` on the passthrough (single-URL) shape. -/
def FormatSources.variant : FormatSources → Tag → Option String
  | .single _, _ => none
  | .multi a _ _ _ _ _, .xs => some a
  | .multi _ b _ _ _ _, .sm => some b
  | .multi _ _ c _ _ _, .md => some c
  | .multi _ _ _ d _ _, .lg => some d
  | .multi _ _ _ _ e _, .xl => some e
  | .multi _ _ _ _ _ f, .original => some f

/-- The result of `generateSources`: one `FormatSources` per format. -/
structure SourceSet where
  avif : FormatSources
  webp : FormatSources
  jpeg : FormatSources
deriving DecidableEq

/-- `String.startsWith`, restated on the character-list model of strings
(the byte-position-based library version does not reduce in the kernel). -/
def strStartsWith (s p : String) : Bool :=
  p.data.isPrefixOf s.data

/-- Case-insensitive `String.endsWith`, on the character-list model. -/
def endsWithCI (s p : String) : Bool :=
  p.data.isSuffixOf (s.data.map Char.toLower)

/-- `baseSrc.replace(/\.(jpg|jpeg|png)$/i, '')`: strip one trailing raster
extension, case-insensitively.  The three alternatives are mutually
exclusive as suffixes, so at most one strip happens, at the very end
(dropping the last n characters is `take (length - n)` on the model). -/
def stripRasterExt (s : String) : String :=
  if endsWithCI s ".jpeg" then ⟨s.data.take (s.data.length - 5)⟩
  else if endsWithCI s ".jpg" then ⟨s.data.take (s.data.length - 4)⟩
  else if endsWithCI s ".png" then ⟨s.data.take (s.data.length - 4)⟩
  else s

/-- Whether the regex `/\.(jpg|jpeg|png)$/i` matches, i.e. the URL ends in a
recognised raster extension. -/
def hasRasterExt (s : String) : Bool :=
  endsWithCI s ".jpeg" || endsWithCI s ".jpg" || endsWithCI s ".png"

/-- `generateSources` from the TSX: passthrough for URLs outside
`/Collection/`, otherwise the five width-tagged variants plus `original`
per format, with the jpeg `original` kept as the literal input. -/
def generateSources (baseSrc : String) : SourceSet :=
  if !(strStartsWith baseSrc "/Collection/") then
    { avif := .single baseSrc, webp := .single baseSrc, jpeg := .single baseSrc }
  else
    let basePath := stripRasterExt baseSrc
    { avif := .multi (basePath ++ "-xs.avif") (basePath ++ "-sm.avif")
        (basePath ++ "-md.avif") (basePath ++ "-lg.avif")
        (basePath ++ "-xl.avif") (basePath ++ ".avif"),
      webp := .multi (basePath ++ "-xs.webp") (basePath ++ "-sm.webp")
        (basePath ++ "-md.webp") (basePath ++ "-lg.webp")
        (basePath ++ "-xl.webp") (basePath ++ ".webp"),
      jpeg := .multi (basePath ++ "-xs.jpg") (basePath ++ "-sm.jpg")
        (basePath ++ "-md.jpg") (basePath ++ "-lg.jpg")
        (basePath ++ "-xl.jpg") baseSrc }

/-- `generateSrcSet` from the TSX: a single URL is returned verbatim; the
mapping becomes six `url widthToken` entries joined by `", "`. -/
def generateSrcSet : FormatSources → String
  | .single url => url
  | .multi a b c d e f =>
      String.intercalate ", "
        [a ++ " 300w", b ++ " 400w", c ++ " 600w",
         d ++ " 800w", e ++ " 1200w", f ++ " 1600w"]

/-- The fixed width tokens of the spec, in breakpoint order xs→original. -/
def widthTokens : List String :=
  ["300w", "400w", "600w", "800w", "1200w", "1600w"]

/-- Modelled from the spec's words (for comparison with `generateSrcSet`):
a comma-separated list of `url widthToken` pairs, width tokens assigned in
breakpoint order. -/
def specCandidateList (urls : List String) : String :=
  String.intercalate ", " (List.zipWith (fun u w => u ++ (" " ++ w)) urls widthTokens)

/-! ## Load/error state tracker -/

/-- The component's load state: the `isLoaded`, `hasError` and
`loadStartTime` pieces of `useState`.  Timestamps (`performance.now()`)
are modelled as naturals. -/
structure LoadState where
  isLoaded : Bool
  hasError : Bool
  loadStartTime : Nat
deriving DecidableEq

/-- The `useEffect(() => { setLoadStartTime(performance.now()) }, [src])`
body: the only state update performed when the `src` prop changes. -/
def srcChangeEffect (now : Nat) (s : LoadState) : LoadState :=
  { s with loadStartTime := now }

/-- Observable actions a load/error handler performs, in program order. -/
inductive Action where
  | setIsLoaded (b : Bool)
  | setHasError (b : Bool)
  | invokeOnLoad
  | invokeOnError
  | consoleLog (msg : String) (arg : String)
  | consoleWarn (msg : String) (arg : String)
  | retryLoad (url : String)
deriving DecidableEq

/-- `handleLoad` from the TSX: set `isLoaded`, call `onLoad` when present,
and log the elapsed time only in a development build. -/
def handleLoadActions (devMode : Bool) (src : String) (loadTime : Nat)
    (onLoadPresent : Bool) : List Action :=
  [.setIsLoaded true]
    ++ (if onLoadPresent then [.invokeOnLoad] else [])
    ++ (if devMode then
          [.consoleLog ("🖼️ Advanced image loaded in " ++ toString loadTime ++ "ms:") src]
        else [])

/-- `handleError` from the TSX: set `hasError`, call `onError` when present,
and warn unconditionally.  The build mode is in scope (the TSX can read
`process.env.NODE_ENV`, and `handleLoad` does) but this handler never
branches on it. -/
def handleErrorActions (_devMode : Bool) (src : String)
    (onErrorPresent : Bool) : List Action :=
  [.setHasError true]
    ++ (if onErrorPresent then [.invokeOnError] else [])
    ++ [.consoleWarn "❌ Advanced image failed to load:" src]

/-- Apply one action's state update (callbacks and console output leave the
component state unchanged). -/
def applyAction (s : LoadState) : Action → LoadState
  | .setIsLoaded b => { s with isLoaded := b }
  | .setHasError b => { s with hasError := b }
  | _ => s

/-- Apply a handler's actions in order. -/
def applyActions (acts : List Action) (s : LoadState) : LoadState :=
  acts.foldl applyAction s

/-! ## Render selector -/

/-- The `loading` attribute values. -/
inductive Loading where
  | lazyLoad | eager
deriving DecidableEq

/-- The `priority` / `fetchPriority` values. -/
inductive PriorityHint where
  | high | low
deriving DecidableEq

/-- The props of `AdvancedImage` that influence the modelled behaviour
(`className` and `style` are presentational pass-throughs). -/
structure Props where
  src : String
  alt : String
  loadingMode : Loading
  priority : PriorityHint
  sizes : String
  placeholder : Bool
  blurDataURL : Option String
deriving DecidableEq

/-- The placeholder overlay: either the blurred low-res `img` (whose
`opacity-0` class is applied exactly when `isLoaded` is true, per the
`cn(..., isLoaded && "opacity-0")` call) or the pulsing gradient `div`. -/
inductive Overlay where
  | blurImage (url : String) (opacityZero : Bool)
  | pulse
deriving DecidableEq

/-- The attributes of the JPEG fallback `img` element. -/
structure ImgAttrs where
  src : String
  srcSet : String
  sizes : String
  alt : String
  loadingMode : Loading
  decodingAsync : Bool
  fetchPriority : PriorityHint
  opacityFull : Bool
deriving DecidableEq

/-- What the component renders: the error box, or the content `div`
(optional overlay, the two `source` srcsets, and the fallback `img`). -/
inductive RenderOutput where
  | errorBox (text : String)
  | content (overlay : Option Overlay) (avifSrcSet webpSrcSet : String) (img : ImgAttrs)
deriving DecidableEq

/-- The component's render function, translated from the TSX return
expressions: the `hasError` early return, the
`placeholder && !isLoaded && (...)` overlay and the `picture` element. -/
def render (p : Props) (s : LoadState) : RenderOutput :=
  if s.hasError then
    .errorBox "Failed to load"
  else
    let sources := generateSources p.src
    .content
      (if p.placeholder && !s.isLoaded then
        some (match p.blurDataURL with
          | some u => Overlay.blurImage u s.isLoaded
          | none => Overlay.pulse)
       else none)
      (generateSrcSet sources.avif)
      (generateSrcSet sources.webp)
      { src := match sources.jpeg with
          | .single u => u
          | .multi _ _ md _ _ _ => md,
        srcSet := generateSrcSet sources.jpeg,
        sizes := p.sizes,
        alt := p.alt,
        loadingMode := p.loadingMode,
        decodingAsync := true,
        fetchPriority := p.priority,
        opacityFull := s.isLoaded }

/-- The overlay of a render output, if any. -/
def overlayOf : RenderOutput → Option Overlay
  | .errorBox _ => none
  | .content ov _ _ _ => ov

/-! ## Preload side effect -/

/-- The props the preload `useEffect` reads. -/
structure PreloadProps where
  src : String
  loadingMode : Loading
  priority : PriorityHint
deriving DecidableEq

/-- The effect's guard: `loading === 'eager' && priority === 'high'`. -/
def eagerHigh : PreloadProps → Bool
  | ⟨_, .eager, .high⟩ => true
  | _ => false

/-- The injected link's `href`:
`typeof sources.avif === 'string' ? sources.avif : sources.avif.md`. -/
def preloadHref (src : String) : String :=
  match (generateSources src).avif with
  | .single u => u
  | .multi _ _ md _ _ _ => md

/-- Component lifecycle events.  An `update` covers any re-render: the
effect's dependency array contains the freshly-allocated `sources` object,
so the effect re-runs (cleanup, then body) on every render. -/
inductive PEvent where
  | mount (p : PreloadProps)
  | update (p : PreloadProps)
  | unmount
deriving DecidableEq

/-- The preload machine's state: whether the component is mounted, its
current props, the preload link hrefs this component has placed in the
document head, and the link the active effect's cleanup would remove. -/
structure PState where
  mounted : Bool
  props : PreloadProps
  links : List String
  pending : Option String
deriving DecidableEq

/-- Cleanup: `if (document.head.contains(link)) document.head.removeChild(link)`. -/
def removePending (links : List String) : Option String → List String
  | none => links
  | some l => links.erase l

/-- The effect body: a link is appended exactly when the guard holds. -/
def effectLink (p : PreloadProps) : Option String :=
  if eagerHigh p then some (preloadHref p.src) else none

/-- One lifecycle step, with React's effect semantics: run the body on
mount, cleanup-then-body on update, cleanup on unmount. -/
def pstep (st : PState) : PEvent → PState
  | .mount p =>
      if st.mounted then st
      else
        let l := effectLink p
        { mounted := true, props := p, links := st.links ++ l.toList, pending := l }
  | .update p =>
      if st.mounted then
        let cleaned := removePending st.links st.pending
        let l := effectLink p
        { mounted := true, props := p, links := cleaned ++ l.toList, pending := l }
      else st
  | .unmount =>
      if st.mounted then
        { mounted := false, props := st.props,
          links := removePending st.links st.pending, pending := none }
      else st

/-- The initial state: not yet mounted, empty document head contribution. -/
def pinit : PState :=
  { mounted := false, props := ⟨"", .lazyLoad, .low⟩, links := [], pending := none }

/-- Run a lifecycle event sequence from the initial state. -/
def prun (evs : List PEvent) : PState :=
  evs.foldl pstep pinit

/-- The preload machine's invariant: the pending cleanup handle matches the
effect guard for the current mount/props, and the head holds exactly the
pending link. -/
def pinv (st : PState) : Prop :=
  st.pending = (if st.mounted && eagerHigh st.props then some (preloadHref st.props.src) else none)
    ∧ st.links = st.pending.toList

/-! ## Helper lemmas -/

theorem stripRasterExt_of_not_raster (s : String) (h : hasRasterExt s = false) :
    stripRasterExt s = s := by
  rw [hasRasterExt, Bool.or_eq_false_iff, Bool.or_eq_false_iff] at h
  rw [stripRasterExt, h.1.1, h.1.2, h.2]
  rfl

theorem endsWithCI_length_le (s p : String) (h : endsWithCI s p = true) :
    p.data.length ≤ s.data.length := by
  rw [endsWithCI, List.isSuffixOf_iff_suffix] at h
  simpa using h.length_le

theorem stripRasterExt_length_lt (s : String) (h : hasRasterExt s = true) :
    (stripRasterExt s).data.length < s.data.length := by
  rw [stripRasterExt]
  by_cases h5 : endsWithCI s ".jpeg" = true
  · rw [if_pos h5]
    have hle := endsWithCI_length_le s ".jpeg" h5
    simp only [List.length_take]
    simp only [String.data, List.length_cons, List.length_nil] at hle
    omega
  · rw [if_neg h5]
    by_cases h4 : endsWithCI s ".jpg" = true
    · rw [if_pos h4]
      have hle := endsWithCI_length_le s ".jpg" h4
      simp only [List.length_take]
      simp only [String.data, List.length_cons, List.length_nil] at hle
      omega
    · rw [if_neg h4]
      have hp : endsWithCI s ".png" = true := by
        rw [hasRasterExt, Bool.or_eq_true, Bool.or_eq_true] at h
        rcases h with (h | h) | h
        · exact absurd h h5
        · exact absurd h h4
        · exact h
      rw [if_pos hp]
      have hle := endsWithCI_length_le s ".png" hp
      simp only [List.length_take]
      simp only [String.data, List.length_cons, List.length_nil] at hle
      omega

theorem pinv_init : pinv pinit :=
  ⟨rfl, rfl⟩

theorem pinv_step (st : PState) (e : PEvent) (h : pinv st) : pinv (pstep st e) := by
  obtain ⟨h1, h2⟩ := h
  cases e with
  | mount p =>
    cases hm : st.mounted with
    | true => simpa [pstep, hm] using ⟨h1, h2⟩
    | false =>
      rw [hm] at h1
      simp only [Bool.false_and, if_neg Bool.false_ne_true] at h1
      refine ⟨by simp [pstep, hm, effectLink], ?_⟩
      simp [pstep, hm, h2, h1]
  | update p =>
    cases hm : st.mounted with
    | false => simpa [pstep, hm] using ⟨h1, h2⟩
    | true =>
      refine ⟨by simp [pstep, hm, effectLink], ?_⟩
      simp only [pstep, hm, if_pos]
      rw [h2]
      cases st.pending with
      | none => simp [removePending]
      | some l => simp [removePending]
  | unmount =>
    cases hm : st.mounted with
    | false => simpa [pstep, hm] using ⟨h1, h2⟩
    | true =>
      refine ⟨by simp [pstep, hm], ?_⟩
      simp only [pstep, hm, if_pos]
      rw [h2]
      cases st.pending with
      | none => simp [removePending]
      | some l => simp [removePending]

theorem pinv_run (evs : List PEvent) (st : PState) (h : pinv st) :
    pinv (List.foldl pstep st evs) := by
  induction evs generalizing st with
  | nil => exact h
  | cons e rest ih => exact ih (pstep st e) (pinv_step st e h)

/-! ## Claim theorems -/

/-- C4: a base URL not starting with the asset-directory prefix
`/Collection/` is passed through unchanged as a single string for each of
the three formats. -/
theorem c4_passthrough (s : String) (h : strStartsWith s "/Collection/" = false) :
    generateSources s = ⟨.single s, .single s, .single s⟩ := by
  rw [generateSources, h]
  rfl

theorem c4_passthrough_witness :
    strStartsWith "https://example.com/pic.jpg" "/Collection/" = false ∧
    generateSources "https://example.com/pic.jpg" =
      ⟨.single "https://example.com/pic.jpg", .single "https://example.com/pic.jpg",
        .single "https://example.com/pic.jpg"⟩ :=
  ⟨by decide, c4_passthrough "https://example.com/pic.jpg" (by decide)⟩

/-- C5: a qualifying base URL (under `/Collection/`, ending in a raster
extension) yields, per format, all five width-tagged variants plus an
original; the jpeg original is the literal input; the avif `md` variant is
the extension-stripped base followed by `-md.avif`; and the stripping
genuinely shortens the URL. -/
theorem c5_variants (s : String) (h1 : strStartsWith s "/Collection/" = true)
    (h2 : hasRasterExt s = true) :
    (generateSources s).jpeg.variant Tag.original = some s ∧
    (generateSources s).avif.variant Tag.md = some (stripRasterExt s ++ "-md.avif") ∧
    (generateSources s).webp.variant Tag.md = some (stripRasterExt s ++ "-md.webp") ∧
    (∀ t : Tag, ((generateSources s).avif.variant t).isSome = true ∧
      ((generateSources s).webp.variant t).isSome = true ∧
      ((generateSources s).jpeg.variant t).isSome = true) ∧
    (stripRasterExt s).data.length < s.data.length := by
  refine ⟨?_, ?_, ?_, ?_, stripRasterExt_length_lt s h2⟩ <;>
    rw [generateSources, h1]
  · rfl
  · rfl
  · rfl
  · exact fun t => by cases t <;> exact ⟨rfl, rfl, rfl⟩

theorem c5_variants_witness :
    strStartsWith "/Collection/photo.jpg" "/Collection/" = true ∧
    hasRasterExt "/Collection/photo.jpg" = true ∧
    (generateSources "/Collection/photo.jpg").avif.variant Tag.md =
      some "/Collection/photo-md.avif" ∧
    (generateSources "/Collection/photo.jpg").jpeg.variant Tag.original =
      some "/Collection/photo.jpg" := by
  have h := c5_variants "/Collection/photo.jpg" (by decide) (by decide)
  exact ⟨by decide, by decide, h.2.1.trans (by decide), h.1⟩

/-- C6: the responsive-candidate-list serializer returns a single URL
verbatim with no width descriptor, and maps a five-breakpoint mapping to
the spec's comma-separated list of exactly six `url widthToken` pairs with
the fixed width tokens 300w..1600w assigned in order xs→original,
whatever the URLs are. -/
theorem c6_srcset :
    (∀ u : String, generateSrcSet (.single u) = u) ∧
    (∀ a b c d e f : String,
      generateSrcSet (.multi a b c d e f) = specCandidateList [a, b, c, d, e, f]) ∧
    (∀ a b c d e f : String,
      (List.zipWith (fun u w => u ++ (" " ++ w)) [a, b, c, d, e, f] widthTokens).length = 6) ∧
    widthTokens = ["300w", "400w", "600w", "800w", "1200w", "1600w"] :=
  ⟨fun _ => rfl, fun _ _ _ _ _ _ => rfl, fun _ _ _ _ _ _ => rfl, rfl⟩

/-- C10: a `/Collection/` URL without a recognised raster extension is not
passed through; it still gets the five-breakpoint mapping, built from the
whole unmodified URL (extension included), with the jpeg original equal to
the input. -/
theorem c10_nonraster_mapping (s : String)
    (h1 : strStartsWith s "/Collection/" = true) (h2 : hasRasterExt s = false) :
    (generateSources s).avif =
      .multi (s ++ "-xs.avif") (s ++ "-sm.avif") (s ++ "-md.avif")
        (s ++ "-lg.avif") (s ++ "-xl.avif") (s ++ ".avif") ∧
    (generateSources s).jpeg.variant Tag.original = some s := by
  have hs := stripRasterExt_of_not_raster s h2
  rw [generateSources, h1]
  exact ⟨by rw [hs]; rfl, rfl⟩

theorem c10_nonraster_mapping_witness :
    strStartsWith "/Collection/photo.webp" "/Collection/" = true ∧
    hasRasterExt "/Collection/photo.webp" = false ∧
    (generateSources "/Collection/photo.webp").avif.variant Tag.md =
      some "/Collection/photo.webp-md.avif" ∧
    (generateSources "/Collection/photo.webp").jpeg.variant Tag.original =
      some "/Collection/photo.webp" := by
  have h := c10_nonraster_mapping "/Collection/photo.webp" (by decide) (by decide)
  refine ⟨by decide, by decide, ?_, h.2⟩
  rw [h.1]
  rfl

/-- C1 counterexample: the claim says a `src` change resets the load state
to `{isLoaded := false, hasError := false, loadStartedAt := now}`; but on
the state left by a failed load, the effect that runs on a `src` change
keeps `hasError = true` (it only updates the timestamp). -/
theorem c1_reset_counterexample :
    ¬ ((srcChangeEffect 5 ⟨false, true, 0⟩).isLoaded = false ∧
       (srcChangeEffect 5 ⟨false, true, 0⟩).hasError = false ∧
       (srcChangeEffect 5 ⟨false, true, 0⟩).loadStartTime = 5) := by
  decide

/-- C1 amended: for every change of the `src` prop, the component only
updates `loadStartedAt` to the current time; `isLoaded` and `hasError`
keep their previous values (in particular a previous error is not
cleared). -/
theorem c1_src_change_amended (now : Nat) (s : LoadState) :
    srcChangeEffect now s =
      ⟨s.isLoaded, s.hasError, now⟩ :=
  rfl

/-- C2 counterexample: the claim says the placeholder overlay stays
mounted after `isLoaded` becomes true and merely turns invisible; but in
content state with a placeholder and a blur URL, once `isLoaded` is true
no overlay is rendered at all. -/
theorem c2_unmount_counterexample :
    overlayOf (render ⟨"/Collection/a.jpg", "alt", .lazyLoad, .low, "100vw", true,
        some "data:image/jpeg;base64,xyz"⟩ ⟨true, false, 0⟩) = none := by
  decide

/-- C2 amended: with a placeholder enabled, the overlay is rendered only
while `isLoaded` is false (fully visible: the blur image's `opacity-0`
class is not applied there); once `isLoaded` becomes true the overlay is
removed from the render tree rather than kept mounted invisibly. -/
theorem c2_overlay_amended (src alt sz u : String) (l : Loading) (pr : PriorityHint)
    (bd : Option String) (t t' : Nat) :
    overlayOf (render ⟨src, alt, l, pr, sz, true, bd⟩ ⟨true, false, t⟩) = none ∧
    overlayOf (render ⟨src, alt, l, pr, sz, true, some u⟩ ⟨false, false, t'⟩) =
      some (Overlay.blurImage u false) ∧
    overlayOf (render ⟨src, alt, l, pr, sz, true, none⟩ ⟨false, false, t'⟩) =
      some Overlay.pulse :=
  ⟨rfl, rfl, rfl⟩

/-- C3: whenever `hasError` is true — even simultaneously with
`isLoaded = true` — the component renders only the error placeholder box
with the literal text "Failed to load"; no overlay or picture content is
produced. -/
theorem c3_error_precedence (p : Props) (loaded : Bool) (t : Nat) :
    render p ⟨loaded, true, t⟩ = .errorBox "Failed to load" :=
  rfl

/-- C7: over every lifecycle event sequence, the component's contribution
to the document head is exactly one preload link — whose href is the AVIF
`md` variant, or the plain URL in the passthrough case — while it is
mounted with `loading = eager` and `priority = high`, and no link
otherwise (in particular zero after unmount, and zero when the guard does
not hold). -/
theorem c7_preload_hint (evs : List PEvent) :
    (prun evs).links =
      (if (prun evs).mounted && eagerHigh (prun evs).props then
        [preloadHref (prun evs).props.src]
       else []) := by
  obtain ⟨h1, h2⟩ := pinv_run evs pinit pinv_init
  simp only [prun]
  rw [h2, h1]
  cases hc : (List.foldl pstep pinit evs).mounted &&
      eagerHigh (List.foldl pstep pinit evs).props <;>
    simp

/-- C8: when the `placeholder` prop is false and no error occurred, no
overlay (neither blur image nor pulsing block) is rendered, whatever the
`isLoaded` state. -/
theorem c8_no_placeholder_no_overlay (src alt sz : String) (l : Loading)
    (pr : PriorityHint) (bd : Option String) (loaded : Bool) (t : Nat) :
    overlayOf (render ⟨src, alt, l, pr, sz, false, bd⟩ ⟨loaded, false, t⟩) = none :=
  rfl

/-- C9: on a failure signal the handler sets `hasError := true`, invokes
`onError` exactly when a callback is present, emits a console warning
carrying the source URL in every build mode, and performs no retry. -/
theorem c9_error_handler (devMode : Bool) (src : String) (onErrorPresent : Bool)
    (s : LoadState) :
    (applyActions (handleErrorActions devMode src onErrorPresent) s).hasError = true ∧
    (Action.invokeOnError ∈ handleErrorActions devMode src onErrorPresent ↔
      onErrorPresent = true) ∧
    Action.consoleWarn "❌ Advanced image failed to load:" src ∈
      handleErrorActions devMode src onErrorPresent ∧
    ∀ u : String, Action.retryLoad u ∉ handleErrorActions devMode src onErrorPresent := by
  cases onErrorPresent <;>
    simp [handleErrorActions, applyActions, applyAction]

theorem c9_error_handler_witness :
    (applyActions (handleErrorActions false "/Collection/a.jpg" true)
      ⟨false, false, 0⟩).hasError = true ∧
    Action.consoleWarn "❌ Advanced image failed to load:" "/Collection/a.jpg" ∈
      handleErrorActions false "/Collection/a.jpg" true :=
  ⟨(c9_error_handler false "/Collection/a.jpg" true ⟨false, false, 0⟩).1,
   (c9_error_handler false "/Collection/a.jpg" true ⟨false, false, 0⟩).2.2.1⟩

end AdvancedImage
